import Mathlib

/-!
Verification development for the grumpy_clippy watcher/analyzer.

The Rust sources are shallowly embedded: the `syn` expression tree is
modelled by `GrumpyClippy.RExpr` (a node kind plus the list of child
expressions that `syn::visit::visit_expr` would walk), the complexity
visitor of `analyzer/complexity_inspector.rs` by `visit_expr`/`visit_exprs`,
the custom rule engine of `analyzer/custom_rules.rs` by `apply_rules`,
the report assembly of `analyzer/actions.rs` by `handle_file_changes`
(with the external formatter / linter / filesystem / git results injected
as parameters), the debounced watch loop of `watcher.rs` by `watch_loop`,
and the log-buffer worker of `logger/buffer.rs` by `worker_run`.
`usize -> u8` casts are modelled as `% 256`; a Rust `panic!`/`expect`
is modelled by the `PanicOr.panicked` constructor.
-/

namespace GrumpyClippy

/-- `config.rs`: the closed grumpiness enumeration. -/
inductive GrumpinessLevel where
  | Mild
  | Sarcastic
  | Rude
deriving DecidableEq, Repr

/-- `complexity_inspector.rs`: per-function metrics (`FunctionComplexity`). -/
structure FunctionComplexity where
  name : String
  lines_of_code : Nat
  cyclomatic_complexity : Nat
  max_nesting_depth : Nat
  return_count : Nat
  param_count : Nat
deriving DecidableEq, Repr

/-- The kinds of `syn::Expr` nodes the visitor distinguishes. -/
inductive ExprKind where
  | eIf
  | eMatch
  | eWhile
  | eForLoop
  | eLoop
  | eClosure
  | eReturn
  | eOther
deriving DecidableEq, Repr

/-- A `syn` expression: its kind together with the child expressions that
`syn::visit::visit_expr`'s default walk would visit. -/
inductive RExpr where
  | node (kind : ExprKind) (children : List RExpr)

/-- Mutable state of `ComplexityVisitor` in `complexity_inspector.rs`. -/
structure ComplexityVisitor where
  cyclomatic_complexity : Nat
  max_depth : Nat
  current_depth : Nat
  return_count : Nat
deriving DecidableEq, Repr

mutual

/-- `ComplexityVisitor::visit_expr`: branching constructs bump the
complexity and the nesting depth around the walk of their children;
closures are not descended into; `return` bumps the return counter. -/
def visit_expr (v : ComplexityVisitor) : RExpr → ComplexityVisitor
  | .node k children =>
    match k with
    | .eIf | .eMatch | .eWhile | .eForLoop | .eLoop =>
      let v1 := { v with
        cyclomatic_complexity := v.cyclomatic_complexity + 1,
        current_depth := v.current_depth + 1 }
      let v2 := { v1 with max_depth := max v1.max_depth v1.current_depth }
      let v3 := visit_exprs v2 children
      { v3 with current_depth := v3.current_depth - 1 }
    | .eClosure => v
    | .eReturn => visit_exprs { v with return_count := v.return_count + 1 } children
    | .eOther => visit_exprs v children

/-- The default walk over a list of child expressions. -/
def visit_exprs (v : ComplexityVisitor) : List RExpr → ComplexityVisitor
  | [] => v
  | e :: es => visit_exprs (visit_expr v e) es

end

/-- A top-level item of a parsed file: a function (name, arity, and the
statements of its block, each statement modelled by the expression the
visitor walks) or any non-function item. -/
structure ItemFn where
  name : String
  param_count : Nat
  stmts : List RExpr

/-- `syn::Item`, reduced to what `analyze_file` inspects. -/
inductive Item where
  | fnItem (f : ItemFn)
  | other

/-- `complexity_inspector.rs::analyze_function`. -/
def analyze_function (func : ItemFn) : FunctionComplexity :=
  let loc := func.stmts.length
  let v0 : ComplexityVisitor :=
    { cyclomatic_complexity := 1, max_depth := 0, current_depth := 0, return_count := 0 }
  let v := visit_exprs v0 func.stmts
  { name := func.name
    lines_of_code := loc
    cyclomatic_complexity := v.cyclomatic_complexity
    max_nesting_depth := v.max_depth
    return_count := v.return_count
    param_count := func.param_count }

/-- `complexity_inspector.rs::analyze_file`: one metrics record per
top-level function item, in order. -/
def analyze_file (file : List Item) : List FunctionComplexity :=
  file.filterMap fun
    | .fnItem f => some (analyze_function f)
    | .other => none

/-- Is this node kind one of the five branching constructs the visitor
counts? -/
def isBranchKind : ExprKind → Bool
  | .eIf | .eMatch | .eWhile | .eForLoop | .eLoop => true
  | _ => false

mutual

/-- Number of branching constructs the visitor actually reaches in an
expression (closure bodies excluded, exactly as the visitor skips them). -/
def countBranches : RExpr → Nat
  | .node k children =>
    match k with
    | .eIf | .eMatch | .eWhile | .eForLoop | .eLoop => 1 + countBranchesList children
    | .eClosure => 0
    | .eReturn => countBranchesList children
    | .eOther => countBranchesList children

/-- Sum of `countBranches` over a list of expressions. -/
def countBranchesList : List RExpr → Nat
  | [] => 0
  | e :: es => countBranches e + countBranchesList es

end

mutual

/-- The visitor's complexity field grows by exactly the number of reachable
branching constructs. -/
theorem visit_expr_cc (v : ComplexityVisitor) (e : RExpr) :
    (visit_expr v e).cyclomatic_complexity = v.cyclomatic_complexity + countBranches e :=
  match e with
  | .node k children => by
    cases k <;>
      simp only [visit_expr, visit_exprs_cc, countBranches] <;> omega

/-- List version of `visit_expr_cc`. -/
theorem visit_exprs_cc (v : ComplexityVisitor) (es : List RExpr) :
    (visit_exprs v es).cyclomatic_complexity = v.cyclomatic_complexity + countBranchesList es :=
  match es with
  | [] => by simp [visit_exprs, countBranchesList]
  | e :: es' => by
    simp only [visit_exprs, countBranchesList, visit_exprs_cc (visit_expr v e) es',
      visit_expr_cc v e]
    omega

end

/-! ## Tone-selected messages (`analyzer/messages.rs`) -/

/-- `messages.rs::clippy::success`. -/
def clippy.success : GrumpinessLevel → String
  | .Mild => "✅ cargo clippy successful"
  | .Sarcastic => "✅🙈 Oh, you did not break anything. Strange!"
  | .Rude => "✅🙄 Oh, you managed not to break anything? Well, there is a first time for everything."

/-- `messages.rs::clippy::failure`. -/
def clippy.failure : GrumpinessLevel → String
  | .Mild => "❌ Clippy failed (see terminal for details)"
  | .Sarcastic => "❌🙄 Oh, you did break something (as usual):"
  | .Rude => "❌💣 Of course you broke something—how utterly predictable."

/-- `messages.rs::complexity::warning`. -/
def complexity.warning (level : GrumpinessLevel) (name : String)
    (cyclomaticComplexity maxAllowed : Nat) : String :=
  match level with
  | .Mild =>
    "Function '" ++ name ++ "': Cyclomatic complexity too high (" ++
      toString cyclomaticComplexity ++ " > " ++ toString maxAllowed ++
      "). Consider simplifying it."
  | .Sarcastic =>
    "Function '" ++ name ++ "': Wow, cyclomatic complexity (" ++
      toString cyclomaticComplexity ++ " > " ++ toString maxAllowed ++
      ")! Are you trying to write a novel?"
  | .Rude =>
    "Function '" ++ name ++ "': Cyclomatic complexity (" ++
      toString cyclomaticComplexity ++ " > " ++ toString maxAllowed ++
      ")? What is this monstrosity?"

/-- `messages.rs::function_size::warning` (the sarcastic and rude tones
print the size twice, as the Rust format strings do). -/
def function_size.warning (level : GrumpinessLevel) (name : String)
    (size maxAllowed : Nat) : String :=
  match level with
  | .Mild =>
    "Function '" ++ name ++ "': Too many lines (" ++ toString size ++ " > " ++
      toString maxAllowed ++ "). Consider refactoring."
  | .Sarcastic =>
    "Function '" ++ name ++ "': Wow, " ++ toString size ++ " lines (" ++
      toString size ++ " > " ++ toString maxAllowed ++ ")! Are you writing a novel?"
  | .Rude =>
    "Function '" ++ name ++ "': " ++ toString size ++ " lines (" ++
      toString size ++ " > " ++ toString maxAllowed ++ ")? This is absurd!"

/-- `messages.rs::git_is_stale::info`. -/
def git_is_stale.info : GrumpinessLevel → String
  | .Mild => "Git: Hey there! Just a heads-up: file hasn’t been updated in a while."
  | .Sarcastic => "Git: file looks stale. Consider revisiting it."
  | .Rude => "Git: file is gathering dust. Are you asleep at the keyboard?"

/-- `messages.rs::git_most_frequent_author::info`. -/
def git_most_frequent_author.info (level : GrumpinessLevel) (author : String) : String :=
  match level with
  | .Mild => "Git: file mostly edited by our star `" ++ author ++ "`!"
  | .Sarcastic => "Git: file mostly authored by `" ++ author ++ "`. Check if they're still around."
  | .Rude => "Git: Looks like here is " ++ author ++ "'s personal playground."

/-! ## Rule engine (`analyzer/custom_rules.rs`) -/

/-- `custom_rules.rs::RuleConfig`. -/
structure RuleConfig where
  name : String
  enabled : Bool
  threshold : Option Nat
  option : Option String
deriving DecidableEq, Repr

/-- `str::contains` on strings: the pattern is an infix of the text. -/
def strContains (s pat : String) : Bool := decide (pat.data <:+: s.data)

/-- `custom_rules.rs::no_todo_comments`. -/
def no_todo_comments (source : String) : Bool := strContains source.toLower "todo"

/-- `custom_rules.rs::contains_forbidden_word`. -/
def contains_forbidden_word (source word : String) : Bool := strContains source word

/-- Rust `Debug` rendering of a `String` (the escaping of special
characters inside the text is not modelled). -/
def debugString (s : String) : String := "\"" ++ s ++ "\""

/-- Rust `Debug` rendering of an `Option<String>`. -/
def debugOption : Option String → String
  | none => "None"
  | some s => "Some(" ++ debugString s ++ ")"

/-- Rust `Debug` rendering of an `Option<Option<String>>`. -/
def debugOptionOption : Option (Option String) → String
  | none => "None"
  | some o => "Some(" ++ debugOption o ++ ")"

/-- `custom_rules.rs::generate_message`: the Rust code formats
`Some(message)` with `{:?}`, so the second line shows the doubly wrapped
option. -/
def generate_message (rule : String) (message : Option String) : String :=
  "Rule violation: " ++ rule ++ "\nmessage " ++ debugOptionOption (some message)

/-- The `for` loop inside `custom_rules.rs::apply_rules`, carrying the
`successful` flag and the accumulated messages. -/
def apply_rules_loop (source : String) :
    List RuleConfig → Bool → List String → Except String (Bool × List String)
  | [], successful, messages => .ok (successful, messages)
  | rule :: rest, successful, messages =>
    if !rule.enabled then apply_rules_loop source rest successful messages
    else if rule.name = "no_todo_comments" then
      if no_todo_comments source then
        apply_rules_loop source rest false
          (messages ++ [generate_message rule.name (some "TODO comments found!")])
      else apply_rules_loop source rest successful messages
    else if rule.name = "forbid_word" then
      match rule.option with
      | some forbidden_word =>
        if contains_forbidden_word source forbidden_word then
          apply_rules_loop source rest false
            (messages ++ [generate_message rule.name
              (some ("Use of forbidden word: " ++ forbidden_word))])
        else apply_rules_loop source rest successful messages
      | none => apply_rules_loop source rest successful messages
    else .error ("Unknown rule: " ++ rule.name)

/-- `custom_rules.rs::apply_rules`. -/
def apply_rules (rules : List RuleConfig) (source : String) :
    Except String (Bool × List String) :=
  apply_rules_loop source rules true []

/-! ## Rule-file loading (`custom_rules.rs::load_custom_rules_from_toml`)

The filesystem and the `toml` crate are external collaborators; their
outcomes are injected: `path_exists` models `Path::exists`,
`read_to_string` models `fs::read_to_string`, `toml_from_str` models
`toml::from_str` into a `toml::Value` (`none` = malformed input), and
`parse_rule` models the per-element `toml::from_str::<RuleConfig>`
(`none` = wrongly shaped rule record).  A Rust `expect` on a failed
result is a panic, modelled by `PanicOr.panicked`. -/

/-- Outcome of Rust code that may `panic!` (via `expect`/`unwrap`). -/
inductive PanicOr (α : Type) where
  | panicked (msg : String)
  | value (v : α)
deriving Repr, DecidableEq

/-- A `toml::Value`, reduced to what the loader inspects. -/
inductive TomlValue where
  | table (entries : List (String × TomlValue))
  | array (elems : List TomlValue)
  | scalar

/-- Indexing `parsed["rules"]`: defined on tables holding the key;
anywhere else the Rust `Index` impl panics (modelled by `none`). -/
def tomlIndex (v : TomlValue) (key : String) : Option TomlValue :=
  match v with
  | .table entries => (entries.find? fun p => p.1 == key).map fun p => p.2
  | _ => none

/-- `custom_rules.rs::load_custom_rules_from_toml`.  A missing path is
`Ok(None)`; a read failure is `Err`; malformed TOML, a missing or
non-array `rules` entry, and a wrongly shaped rule record all `panic`
through `expect`. -/
def load_custom_rules_from_toml (path : String) (path_exists : Bool)
    (read_to_string : Except String String)
    (toml_from_str : String → Option TomlValue)
    (parse_rule : TomlValue → Option RuleConfig) :
    PanicOr (Except String (Option (List RuleConfig))) :=
  if !path_exists then .value (.ok none)
  else
    match read_to_string with
    | .error e => .value (.error ("Failed to read ruleset file '" ++ path ++ "': " ++ e))
    | .ok toml_str =>
      match toml_from_str toml_str with
      | none => .panicked "Invalid TOML"
      | some parsed =>
        match tomlIndex parsed "rules" with
        | none => .panicked "index out of bounds"
        | some rulesValue =>
          match rulesValue with
          | .array elems =>
            match elems.mapM parse_rule with
            | none => .panicked "Invalid rule format"
            | some rules => .value (.ok (some rules))
          | _ => .panicked "Expected 'rules' array"

/-! ## Analysis orchestrator (`analyzer/actions.rs`)

External collaborators are injected through `Externals`: the outcome of
spawning `cargo fmt` / `cargo clippy` (`Err` = spawn/I-O failure; for
clippy, `Ok` carries `status.success()` and the captured stderr text),
the result of `fs::read_to_string(path)` (`none` = read failure, which
the Rust code turns into a panic via `expect`), the result of
`syn::parse_file` on the file's text (`none` = parse failure, again a
panic via `expect`), the already-computed result of
`load_custom_rules_from_toml` on the configured rules path, and the
outcomes of the git queries. -/

/-- Results of `GitInspector::is_file_stale` and
`GitInspector::most_frequent_author`. -/
structure GitInspectorResults where
  is_file_stale : Except String Bool
  most_frequent_author : Except String (Option String)

/-- The injected outcomes of every external interaction of
`handle_file_changes`. -/
structure Externals where
  fmt_result : Except String Unit
  clippy_result : Except String (Bool × String)
  source_read : Option String
  syn_parse : String → Option (List Item)
  rules_load : PanicOr (Except String (Option (List RuleConfig)))
  git_new : Except String GitInspectorResults

/-- The three report buffers accumulated by `handle_file_changes`. -/
structure Report where
  info_messages : String
  warning_messages : String
  error_messages : String
deriving DecidableEq, Repr

/-- `actions.rs::extract_path_from_src`: `split_once("src/")`, keeping
`"src/"` plus everything after its first occurrence. -/
def extract_path_from_src (path : String) : Option String :=
  match path.splitOn "src/" with
  | [] => none
  | [_] => none
  | _ :: rest => some ("src/" ++ String.intercalate "src/" rest)

/-- `actions.rs::match_path`. -/
def match_path (path : String) (std_err : String) : Bool :=
  match extract_path_from_src path with
  | some relative_path =>
    strContains std_err ("--> " ++ relative_path) || strContains std_err ("--> " ++ path)
  | none => false

/-- The `for m in metrics` loop of `actions.rs::analyze_file_complexity`:
the `usize` metrics are cast to `u8` (`% 256`) before being compared with
the configured `u8` maxima; each violated threshold appends one warning
line and clears `successful`. -/
def check_metrics (grumpiness_level : GrumpinessLevel)
    (max_function_size max_cyclomatic_complexity : Nat) :
    List FunctionComplexity → Bool → String → Bool × String
  | [], successful, messages => (successful, messages)
  | m :: rest, successful, messages =>
    let (s1, m1) :=
      if m.cyclomatic_complexity % 256 > max_cyclomatic_complexity then
        (false,
         messages ++
           complexity.warning grumpiness_level m.name m.cyclomatic_complexity
             max_cyclomatic_complexity ++ "\n")
      else (successful, messages)
    let (s2, m2) :=
      if m.lines_of_code % 256 > max_function_size then
        (false,
         m1 ++
           function_size.warning grumpiness_level m.name m.lines_of_code
             max_function_size ++ "\n")
      else (s1, m1)
    check_metrics grumpiness_level max_function_size max_cyclomatic_complexity rest s2 m2

/-- `actions.rs::analyze_file_complexity`: reads and parses the file
(each failure panics through `expect`), then checks every function's
metrics against the thresholds. -/
def analyze_file_complexity (grumpiness_level : GrumpinessLevel)
    (max_function_size max_cyclomatic_complexity : Nat)
    (source_read : Option String) (syn_parse : String → Option (List Item)) :
    PanicOr (Except String (Bool × String)) :=
  match source_read with
  | none => .panicked "Failed to read file"
  | some code =>
    match syn_parse code with
    | none => .panicked "Syntax error"
    | some syntaxTree =>
      .value (.ok (check_metrics grumpiness_level max_function_size
        max_cyclomatic_complexity (analyze_file syntaxTree) true ""))

/-- `actions.rs::analyze_file_with_custom_rules`. -/
def analyze_file_with_custom_rules (source_read : Option String)
    (rules_load : PanicOr (Except String (Option (List RuleConfig)))) :
    PanicOr (Except String (Bool × List String)) :=
  match source_read with
  | none => .panicked "Failed to read file"
  | some code =>
    match rules_load with
    | .panicked m => .panicked m
    | .value (.ok (some rules)) => .value (apply_rules rules code)
    | .value (.ok none) => .value (.ok (true, []))
    | .value (.error e) => .value (.error ("Failed to load custom rules: " ++ e))

/-- The `run_fmt` match block of `handle_file_changes`: what it appends
to the (info, error) buffers.  An empty string models "nothing pushed". -/
def fmt_step : Except String Unit → String × String
  | .ok _ => ("✅ cargo fmt successful!\n", "")
  | .error e => ("", "❌ Failed to run 'cargo fmt': " ++ e ++ "\n")

/-- The `run_clippy` match block: what it appends to the
(info, warning, error) buffers. -/
def clippy_step (grumpiness_level : GrumpinessLevel) (path : String) :
    Except String (Bool × String) → String × String × String
  | .ok sc =>
    if sc.1 then (clippy.success grumpiness_level, "", "")
    else if match_path path sc.2 then ("", clippy.failure grumpiness_level, "")
    else ("", "", "")
  | .error e => ("", "", "❌ Failed to run 'clippy': " ++ e ++ "\n")

/-- The `analyze_file_complexity` match block: what a completed
complexity step appends to the (warning, error) buffers. -/
def complexity_result_step : Except String (Bool × String) → String × String
  | .ok sm => (if sm.1 then "" else sm.2, "")
  | .error e => ("", "❌ Failed to analyse file with custom rules: " ++ e ++ "\n")

/-- The `analyze_file_with_custom_rules` match block: what a completed
rules step appends to the (warning, error) buffers. -/
def rules_result_step : Except String (Bool × List String) → String × String
  | .ok sm => (if sm.1 then "" else String.intercalate "\n" sm.2, "")
  | .error e => ("", "❌ Failed to analyse file: " ++ e ++ "\n")

/-- The `GitInspector` match block: what the git step appends to the
(info, error) buffers. -/
def git_step (grumpiness_level : GrumpinessLevel) :
    Except String GitInspectorResults → String × String
  | .ok inspector =>
    let i1e1 : String × String :=
      match inspector.is_file_stale with
      | .ok true => (git_is_stale.info grumpiness_level, "")
      | .ok false => ("", "")
      | .error e => ("", "❌ Failed to check if file is stale: " ++ e ++ "\n")
    let i2e2 : String × String :=
      match inspector.most_frequent_author with
      | .ok author =>
        (git_most_frequent_author.info grumpiness_level (author.getD ""), "")
      | .error e => ("", "❌ Failed to get most frequent author: " ++ e ++ "\n")
    (i1e1.1 ++ i2e2.1, i1e1.2 ++ i2e2.2)
  | .error e => ("", "❌ Failed to create GitInspector: " ++ e ++ "\n")

/-- `actions.rs::handle_file_changes`: the fixed five-step pipeline
filling the info / warning / error buffers; each step's match block is
embedded by the `*_step` function above, and each buffer is the ordered
concatenation of what the steps push into it.  A panic (read or parse
failure, malformed rules file) aborts the whole run and loses all
buffers, exactly as a Rust panic would. -/
def handle_file_changes (path : String) (grumpiness_level : GrumpinessLevel)
    (max_function_size max_cyclomatic_complexity : Nat) (ext : Externals) :
    PanicOr Report :=
  let info0 :=
    "Detected changes in '" ++ debugString ((extract_path_from_src path).getD "") ++ "'\n"
  let fmtStep := fmt_step ext.fmt_result
  let clippyStep := clippy_step grumpiness_level path ext.clippy_result
  match analyze_file_complexity grumpiness_level max_function_size
      max_cyclomatic_complexity ext.source_read ext.syn_parse with
  | .panicked m => .panicked m
  | .value complexityResult =>
    let compStep := complexity_result_step complexityResult
    match analyze_file_with_custom_rules ext.source_read ext.rules_load with
    | .panicked m => .panicked m
    | .value rulesResult =>
      let rulesStep := rules_result_step rulesResult
      let gitStep := git_step grumpiness_level ext.git_new
      .value
        ⟨info0 ++ fmtStep.1 ++ clippyStep.1 ++ gitStep.1,
         clippyStep.2.1 ++ compStep.1 ++ rulesStep.1,
         fmtStep.2 ++ clippyStep.2.2 ++ compStep.2 ++ rulesStep.2 ++ gitStep.2⟩

/-- The final report text: `info_messages + &warning_messages + &error_messages`. -/
def report_output (r : Report) : String :=
  r.info_messages ++ r.warning_messages ++ r.error_messages

/-- The call in `watcher.rs` (`start_watching`, lines 56-63): the watch
loop passes `&max_cyclomatic_complexity` (holding `config.max_complexity`)
as the THIRD argument of `handle_file_changes` — the parameter named
`max_function_size` — and `&max_function_size` (holding
`config.max_function_size`) as the FOURTH argument — the parameter named
`max_cyclomatic_complexity`. -/
def watcher_handle_file_changes (path : String) (grumpiness_level : GrumpinessLevel)
    (config_max_complexity config_max_function_size : Nat) (ext : Externals) :
    PanicOr Report :=
  handle_file_changes path grumpiness_level config_max_complexity
    config_max_function_size ext

/-- Projection: the warning buffer of a completed run. -/
def reportWarning : PanicOr Report → Option String
  | .value r => some r.warning_messages
  | .panicked _ => none

/-- Projection: the error buffer of a completed run. -/
def reportError : PanicOr Report → Option String
  | .value r => some r.error_messages
  | .panicked _ => none

/-! ## Helpers for the complexity-formula claims -/

/-- The kind of an expression node. -/
def kindOf : RExpr → ExprKind
  | .node k _ => k

/-- The children of an expression node. -/
def childrenOf : RExpr → List RExpr
  | .node _ cs => cs

/-- When no statement hides a branching construct below its top level,
the number of visitor-counted branches is the number of top-level
branching statements. -/
theorem countBranchesList_eq_countP (stmts : List RExpr)
    (h : ∀ e ∈ stmts, countBranchesList (childrenOf e) = 0) :
    countBranchesList stmts = stmts.countP fun e => isBranchKind (kindOf e) := by
  induction stmts with
  | nil => simp [countBranchesList]
  | cons e es ih =>
    have he := h e (by simp)
    have ih' := ih fun x hx => h x (List.mem_cons_of_mem _ hx)
    cases e with
    | node k cs =>
      cases k <;>
        simp_all [countBranchesList, countBranches, isBranchKind, kindOf, childrenOf,
          List.countP_cons] <;> omega

/-- C5: a function body with no branching constructs has cyclomatic
complexity 1, and a body whose branching constructs all sit at the top
level (each statement's children are branch-free) and number N has
cyclomatic complexity N + 1; here N is counted as the number of top-level
statements whose node is an if / match / while / for / loop. -/
theorem C5_cyclomatic_complexity_formula (func : ItemFn)
    (h : ∀ e ∈ func.stmts, countBranchesList (childrenOf e) = 0) :
    (analyze_function func).cyclomatic_complexity =
      (func.stmts.countP fun e => isBranchKind (kindOf e)) + 1 := by
  simp only [analyze_function]
  rw [visit_exprs_cc, countBranchesList_eq_countP func.stmts h]
  show 1 + _ = _ + 1
  omega

/-- Witness for `C5_cyclomatic_complexity_formula`: a body with one
top-level `if`, one top-level `while`, and one plain statement (whose
only nested construct is inside a closure) has complexity 2 + 1 = 3. -/
theorem C5_cyclomatic_complexity_formula_witness :
    (∀ e ∈ ([⟨.eIf, []⟩, ⟨.eWhile, []⟩,
        ⟨.eOther, [⟨.eClosure, [⟨.eIf, []⟩]⟩]⟩] : List RExpr),
      countBranchesList (childrenOf e) = 0) ∧
    (analyze_function ⟨"f", 2, [⟨.eIf, []⟩, ⟨.eWhile, []⟩,
        ⟨.eOther, [⟨.eClosure, [⟨.eIf, []⟩]⟩]⟩]⟩).cyclomatic_complexity =
      (([⟨.eIf, []⟩, ⟨.eWhile, []⟩,
        ⟨.eOther, [⟨.eClosure, [⟨.eIf, []⟩]⟩]⟩] : List RExpr).countP
          fun e => isBranchKind (kindOf e)) + 1 :=
  ⟨by decide,
   C5_cyclomatic_complexity_formula
     ⟨"f", 2, [⟨.eIf, []⟩, ⟨.eWhile, []⟩,
       ⟨.eOther, [⟨.eClosure, [⟨.eIf, []⟩]⟩]⟩]⟩ (by decide)⟩

/-- C6: the visitor never descends into a closure — visiting a closure
node leaves the visitor state untouched, whatever the closure holds —
and a function whose body is exactly one closure statement reports
complexity 1, nesting depth 0 and return count 0, for every closure
content (in particular one with 5 internal branches). -/
theorem C6_closure_exclusion :
    (∀ (v : ComplexityVisitor) (cs : List RExpr),
      visit_expr v (.node .eClosure cs) = v) ∧
    (∀ (name : String) (param_count : Nat) (cs : List RExpr),
      analyze_function ⟨name, param_count, [.node .eClosure cs]⟩ =
        ⟨name, 1, 1, 0, 0, param_count⟩) :=
  ⟨fun _ _ => rfl, fun _ _ _ => rfl⟩

/-! ## Claim C1 / C4 / C10 evaluations -/

/-- A parsed file holding one function of cyclomatic complexity 12
(9 plain `if` statements plus one `if` containing an `if`) and size 10
statements. -/
def c1_file : List Item :=
  [.fnItem ⟨"complex_function", 0,
    [.node .eIf [], .node .eIf [], .node .eIf [], .node .eIf [], .node .eIf [],
     .node .eIf [], .node .eIf [], .node .eIf [], .node .eIf [],
     .node .eIf [.node .eIf []]]⟩]

/-- Externals for the C1 scenario: formatter and linter succeed, the file
reads and parses, no rules file, git quiet. -/
def c1_ext : Externals :=
  { fmt_result := .ok ()
    clippy_result := .ok (true, "")
    source_read := some "fn complex_function() { /* ten if statements */ }"
    syn_parse := fun _ => some c1_file
    rules_load := .value (.ok none)
    git_new := .ok ⟨.ok false, .ok (some "dev")⟩ }

/-- C1: the watch loop passes the two configured maxima to
`handle_file_changes` in swapped positions (watcher.rs lines 56-63 versus
the parameter order of actions.rs line 64).  With `max_complexity = 10`
and `max_function_size = 50`, a file whose only issue is one function of
cyclomatic complexity 12 (and size 10) produces an EMPTY warning buffer
through the watcher — not the one complexity-violation line the claim
requires.  Called with the arguments in the declared order, the same
inputs do produce exactly that one line, confirming that the swap is the
sole cause. -/
theorem C1_watcher_swaps_thresholds :
    ((analyze_file c1_file).map fun m => m.cyclomatic_complexity) = [12] ∧
    ((analyze_file c1_file).map fun m => m.lines_of_code) = [10] ∧
    reportWarning (watcher_handle_file_changes "src/lib.rs" .Mild 10 50 c1_ext) =
      some "" ∧
    reportError (watcher_handle_file_changes "src/lib.rs" .Mild 10 50 c1_ext) =
      some "" ∧
    reportWarning (handle_file_changes "src/lib.rs" .Mild 50 10 c1_ext) =
      some (complexity.warning .Mild "complex_function" 12 10 ++ "\n") ∧
    reportError (handle_file_changes "src/lib.rs" .Mild 50 10 c1_ext) = some "" := by
  refine ⟨by decide, by decide, ?_, ?_, ?_, ?_⟩ <;> decide

/-- Externals for the C4 scenario: everything fine except that the file's
text fails to parse. -/
def c4_ext : Externals :=
  { fmt_result := .ok ()
    clippy_result := .ok (true, "")
    source_read := some "fn broken("
    syn_parse := fun _ => none
    rules_load := .value (.ok none)
    git_new := .ok ⟨.ok false, .ok none⟩ }

/-- C4: a parse failure does NOT end up in the error buffer — the
complexity step panics through `expect("Syntax error")`, and the panic
aborts the whole `handle_file_changes` run, so no report (and no further
step) survives. -/
theorem C4_parse_failure_panics :
    (∀ (g : GrumpinessLevel) (mfs mcc : Nat) (src : String),
      analyze_file_complexity g mfs mcc (some src) (fun _ => none) =
        .panicked "Syntax error") ∧
    handle_file_changes "src/lib.rs" .Mild 50 10 c4_ext =
      .panicked "Syntax error" :=
  ⟨fun _ _ _ _ => rfl, rfl⟩

/-- C3: the loader returns the "no rules" value on a missing path (first
conjunct), but on an existing path with malformed TOML it panics through
`expect("Invalid TOML")` instead of returning an error value (second
conjunct). -/
theorem C3_malformed_toml_panics :
    (∀ (path : String) (read : Except String String)
        (toml_from_str : String → Option TomlValue)
        (parse_rule : TomlValue → Option RuleConfig),
      load_custom_rules_from_toml path false read toml_from_str parse_rule =
        .value (.ok none)) ∧
    load_custom_rules_from_toml "custom_rules.toml" true (.ok "not = [valid")
      (fun _ => none) (fun _ => none) = .panicked "Invalid TOML" :=
  ⟨fun _ _ _ _ => rfl, rfl⟩

/-- C10: the `as u8` casts make both threshold comparisons act on the
metric modulo 256 — the pass/fail outcome for a function is unchanged by
reducing its metrics mod 256 — and concretely a function of cyclomatic
complexity 260 checked against a maximum of 10 yields no warning at all. -/
theorem C10_u8_truncation :
    (∀ (m : FunctionComplexity) (g : GrumpinessLevel) (mfs mcc : Nat)
        (s : Bool) (acc : String),
      (check_metrics g mfs mcc [m] s acc).1 =
        (check_metrics g mfs mcc
          [{ m with cyclomatic_complexity := m.cyclomatic_complexity % 256,
                    lines_of_code := m.lines_of_code % 256 }] s acc).1) ∧
    (∀ (g : GrumpinessLevel) (name : String) (depth returns params : Nat),
      check_metrics g 50 10
        [{ name := name, lines_of_code := 3, cyclomatic_complexity := 260,
           max_nesting_depth := depth, return_count := returns,
           param_count := params }] true "" = (true, "")) := by
  constructor
  · intro m g mfs mcc s acc
    have h1 : m.cyclomatic_complexity % 256 % 256 = m.cyclomatic_complexity % 256 :=
      Nat.mod_mod_of_dvd _ dvd_rfl
    have h2 : m.lines_of_code % 256 % 256 = m.lines_of_code % 256 :=
      Nat.mod_mod_of_dvd _ dvd_rfl
    simp only [check_metrics, h1, h2]
    split_ifs <;> rfl
  · intro g name depth returns params
    simp [check_metrics]

/-! ## Claim C7: rule skipping and fail-fast -/

/-- Disabled rules contribute nothing: the loop behaves as if they were
filtered out beforehand. -/
theorem apply_rules_loop_filter (source : String) (rules : List RuleConfig) :
    ∀ (s : Bool) (msgs : List String),
      apply_rules_loop source rules s msgs =
        apply_rules_loop source (rules.filter fun r => r.enabled) s msgs := by
  induction rules with
  | nil => intro s msgs; rfl
  | cons r rest ih =>
    intro s msgs
    by_cases hr : r.enabled
    · simp only [apply_rules_loop, List.filter_cons, hr, Bool.not_true, if_true,
        Bool.false_eq_true, if_false]
      split_ifs <;>
        first
          | apply ih
          | rfl
          | (split
             · split <;> apply ih
             · apply ih)
    · simp only [Bool.not_eq_true] at hr
      simp only [apply_rules_loop, List.filter_cons, hr, Bool.not_false, if_true,
        Bool.false_eq_true, if_false]
      apply ih

/-- The loop aborts with `Unknown rule` at the first enabled rule whose
name is neither built-in, whatever comes after it. -/
theorem apply_rules_loop_failfast (source : String) (pre : List RuleConfig) :
    ∀ (bad : RuleConfig) (post : List RuleConfig) (s : Bool) (msgs : List String),
      (∀ r ∈ pre, r.enabled = true →
        r.name = "no_todo_comments" ∨ r.name = "forbid_word") →
      bad.enabled = true → bad.name ≠ "no_todo_comments" → bad.name ≠ "forbid_word" →
      apply_rules_loop source (pre ++ bad :: post) s msgs =
        .error ("Unknown rule: " ++ bad.name) := by
  induction pre with
  | nil =>
    intro bad post s msgs _ hb h1 h2
    simp [apply_rules_loop, hb, h1, h2]
  | cons r rest ih =>
    intro bad post s msgs hpre hb h1 h2
    have hrest : ∀ r ∈ rest, r.enabled = true →
        r.name = "no_todo_comments" ∨ r.name = "forbid_word" :=
      fun x hx => hpre x (List.mem_cons_of_mem _ hx)
    by_cases hr : r.enabled
    · simp only [List.cons_append, apply_rules_loop, hr, Bool.not_true,
        Bool.false_eq_true, if_false]
      by_cases hn0 : r.name = "no_todo_comments"
      · rw [if_pos hn0]
        split <;> exact ih bad post _ _ hrest hb h1 h2
      · rw [if_neg hn0]
        rcases hpre r (List.mem_cons_self r rest) hr with hn | hn
        · exact absurd hn hn0
        · rw [if_pos hn]
          split
          · split <;> exact ih bad post _ _ hrest hb h1 h2
          · exact ih bad post _ _ hrest hb h1 h2
    · simp only [Bool.not_eq_true] at hr
      simp only [List.cons_append, apply_rules_loop, hr, Bool.not_false, if_true]
      exact ih bad post s msgs hrest hb h1 h2

/-- C7: for every rule list and source text, rules with `enabled = false`
are skipped entirely (evaluating a list is the same as evaluating its
enabled sublist), and the first enabled rule whose name is neither
`no_todo_comments` nor `forbid_word` makes `apply_rules` return an error,
with no rule after it evaluated (the result does not depend on the rules
after it). -/
theorem C7_rule_skip_and_failfast :
    (∀ (rules : List RuleConfig) (source : String),
      apply_rules rules source =
        apply_rules (rules.filter fun r => r.enabled) source) ∧
    (∀ (pre : List RuleConfig) (bad : RuleConfig) (post : List RuleConfig)
        (source : String),
      (∀ r ∈ pre, r.enabled = true →
        r.name = "no_todo_comments" ∨ r.name = "forbid_word") →
      bad.enabled = true → bad.name ≠ "no_todo_comments" → bad.name ≠ "forbid_word" →
      apply_rules (pre ++ bad :: post) source =
        .error ("Unknown rule: " ++ bad.name)) :=
  ⟨fun rules source => apply_rules_loop_filter source rules true [],
   fun pre bad post source hpre hb h1 h2 =>
     apply_rules_loop_failfast source pre bad post true [] hpre hb h1 h2⟩

/-- Witness for `C7_rule_skip_and_failfast`: a disabled unknown rule is
skipped, and the enabled unknown rule `mystery` aborts evaluation before
the `forbid_word` rule that follows it. -/
theorem C7_rule_skip_and_failfast_witness :
    apply_rules
      ([⟨"mystery", false, none, none⟩, ⟨"no_todo_comments", true, none, none⟩] ++
        ⟨"mystery", true, none, none⟩ :: [⟨"forbid_word", true, none, some "x"⟩])
      "clean source" = .error ("Unknown rule: " ++ "mystery") :=
  C7_rule_skip_and_failfast.2
    [⟨"mystery", false, none, none⟩, ⟨"no_todo_comments", true, none, none⟩]
    ⟨"mystery", true, none, none⟩ [⟨"forbid_word", true, none, some "x"⟩]
    "clean source" (by decide) (by decide) (by decide) (by decide)

/-! ## Watch loop (`watcher.rs::start_watching`)

The event loop is embedded over the sequence of events the channel
delivers: each element carries the `Instant::now()` the loop observes
while handling it (an integer number of seconds) and the event's path
list.  `ignored` stands for `shall_be_ignored(path, &ignore_list)` and
`relevant` for `is_relevant(path, &watch_extensions)`; the regex and
extension machinery behind them is irrelevant to the debounce claims.
`Instant::duration_since` saturates at zero, hence `max 0 (now - last)`.
The debounce interval is the fixed `Duration::from_secs(10)` of
watcher.rs line 45, and the timer is seeded ten seconds in the past
(line 44). -/

/-- The body of the `while running` loop, one call per received event;
returns the list of `(time, path)` pairs on which `handle_file_changes`
is invoked. -/
def watch_loop (ignored relevant : String → Bool) (debounce_interval : Int) :
    List (Int × List String) → Int → List (Int × String)
  | [], _ => []
  | (now, paths) :: rest, last_triggered =>
    match paths with
    | [] => watch_loop ignored relevant debounce_interval rest last_triggered
    | path :: _ =>
      if ignored path then
        watch_loop ignored relevant debounce_interval rest last_triggered
      else if relevant path then
        if max 0 (now - last_triggered) ≥ debounce_interval then
          (now, path) :: watch_loop ignored relevant debounce_interval rest now
        else watch_loop ignored relevant debounce_interval rest last_triggered
      else watch_loop ignored relevant debounce_interval rest last_triggered

/-- Does an event pass both watch-loop filters? -/
def qualifies (ignored relevant : String → Bool) : Int × List String → Bool
  | (_, []) => false
  | (_, path :: _) => !ignored path && relevant path

/-- `start_watching`'s loop: `last_triggered` starts at
`Instant::now() - Duration::from_secs(10)`, i.e. already expired. -/
def start_watching_triggers (ignored relevant : String → Bool) (start_time : Int)
    (events : List (Int × List String)) : List (Int × String) :=
  watch_loop ignored relevant 10 events (start_time - 10)

/-- Every trigger happens at least 10 seconds after the `last_triggered`
the loop started from, and consecutive triggers are at least 10 seconds
apart. -/
theorem watch_loop_gap (ignored relevant : String → Bool)
    (events : List (Int × List String)) :
    ∀ last : Int,
      List.Pairwise (fun a b => a.1 ≤ b.1) events →
      (∀ e ∈ events, last ≤ e.1) →
      (∀ x ∈ watch_loop ignored relevant 10 events last, last + 10 ≤ x.1) ∧
      List.Chain' (fun a b => a.1 + 10 ≤ b.1)
        (watch_loop ignored relevant 10 events last) := by
  induction events with
  | nil => intro last _ _; exact ⟨by simp [watch_loop], by simp [watch_loop]⟩
  | cons ev rest ih =>
    intro last hpw hge
    obtain ⟨now, paths⟩ := ev
    have hnow : last ≤ now := hge _ (List.mem_cons_self _ _)
    have hrest_now : ∀ e ∈ rest, now ≤ e.1 := (List.pairwise_cons.mp hpw).1
    have hpw' := (List.pairwise_cons.mp hpw).2
    have hrest_last : ∀ e ∈ rest, last ≤ e.1 :=
      fun e he => le_trans hnow (hrest_now e he)
    cases paths with
    | nil => simpa only [watch_loop] using ih last hpw' hrest_last
    | cons p ps =>
      by_cases hig : ignored p
      · simpa only [watch_loop, hig, if_true] using ih last hpw' hrest_last
      · by_cases hrel : relevant p
        · by_cases htrig : max 0 (now - last) ≥ 10
          · have h10 : last + 10 ≤ now := by omega
            have hrec := ih now hpw' hrest_now
            simp only [watch_loop, hig, hrel, htrig, Bool.false_eq_true, if_false,
              if_true, ge_iff_le, if_pos]
            constructor
            · intro x hx
              rcases List.mem_cons.mp hx with rfl | hx
              · exact h10
              · have := hrec.1 x hx; omega
            · rw [List.chain'_cons']
              refine ⟨fun b hb => ?_, hrec.2⟩
              have := hrec.1 b (List.mem_of_mem_head? hb)
              omega
          · simpa only [watch_loop, hig, hrel, htrig, Bool.false_eq_true, if_false,
              if_true] using ih last hpw' hrest_last
        · simpa only [watch_loop, hig, hrel, Bool.false_eq_true, if_false]
            using ih last hpw' hrest_last

/-- Non-qualifying events are skipped without touching the debounce
state, so the first qualifying event triggers as soon as its window test
passes. -/
theorem watch_loop_first_qualifying (ignored relevant : String → Bool)
    (pre : List (Int × List String)) :
    ∀ (t : Int) (p : String) (ps : List String)
        (rest : List (Int × List String)) (last : Int),
      (∀ e ∈ pre, qualifies ignored relevant e = false) →
      ignored p = false → relevant p = true → max 0 (t - last) ≥ 10 →
      watch_loop ignored relevant 10 (pre ++ (t, p :: ps) :: rest) last =
        (t, p) :: watch_loop ignored relevant 10 rest t := by
  induction pre with
  | nil =>
    intro t p ps rest last _ hig hrel htrig
    simp [watch_loop, hig, hrel, htrig]
  | cons e pre' ih =>
    intro t p ps rest last hpre hig hrel htrig
    obtain ⟨u, paths⟩ := e
    have he := hpre _ (List.mem_cons_self _ _)
    have hpre' : ∀ x ∈ pre', qualifies ignored relevant x = false :=
      fun x hx => hpre x (List.mem_cons_of_mem _ hx)
    cases paths with
    | nil =>
      simpa only [List.cons_append, watch_loop]
        using ih t p ps rest last hpre' hig hrel htrig
    | cons q qs =>
      by_cases hq : ignored q
      · simpa only [List.cons_append, watch_loop, hq, if_true]
          using ih t p ps rest last hpre' hig hrel htrig
      · have hq' : ignored q = false := by simpa using hq
        have hnr : relevant q = false := by
          simpa [qualifies, hq'] using he
        simpa only [List.cons_append, watch_loop, hq', hnr, Bool.false_eq_true,
          if_false] using ih t p ps rest last hpre' hig hrel htrig

/-- C8: (1) within one watch session no two trigger times are closer than
the 10-second debounce window, however many events arrive; (2) the timer
is seeded already expired, so after any prefix of non-qualifying events
the first qualifying event at `t ≥ start_time` always triggers, and
events inside the window are dropped (the continuation runs on the
remaining events only); (3) for qualifying events at t = 0, 2, 11 with
the 10-second window, exactly the two invocations at t = 0 and t = 11
occur. -/
theorem C8_debounce_invariant :
    (∀ (ignored relevant : String → Bool) (start_time : Int)
        (events : List (Int × List String)),
      List.Pairwise (fun a b => a.1 ≤ b.1) events →
      (∀ e ∈ events, start_time ≤ e.1) →
      List.Chain' (fun a b => a.1 + 10 ≤ b.1)
        (start_watching_triggers ignored relevant start_time events)) ∧
    (∀ (ignored relevant : String → Bool) (start_time : Int)
        (pre : List (Int × List String)) (t : Int) (p : String)
        (ps : List String) (rest : List (Int × List String)),
      (∀ e ∈ pre, qualifies ignored relevant e = false) →
      ignored p = false → relevant p = true → start_time ≤ t →
      start_watching_triggers ignored relevant start_time
          (pre ++ (t, p :: ps) :: rest) =
        (t, p) :: watch_loop ignored relevant 10 rest t) ∧
    start_watching_triggers (fun _ => false) (fun _ => true) 0
      [(0, ["a.rs"]), (2, ["b.rs"]), (11, ["c.rs"])] = [(0, "a.rs"), (11, "c.rs")] := by
  refine ⟨?_, ?_, by decide⟩
  · intro ignored relevant start_time events hpw hge
    exact (watch_loop_gap ignored relevant events (start_time - 10) hpw
      fun e he => by have := hge e he; omega).2
  · intro ignored relevant start_time pre t p ps rest hpre hig hrel hst
    exact watch_loop_first_qualifying ignored relevant pre t p ps rest
      (start_time - 10) hpre hig hrel (by omega)

/-- Witness for `C8_debounce_invariant`: the concrete three-event session
satisfies the hypotheses, and its two triggers are 11 seconds apart. -/
theorem C8_debounce_invariant_witness :
    List.Pairwise (fun (a b : Int × List String) => a.1 ≤ b.1)
      [(0, ["a.rs"]), (2, ["b.rs"]), (11, ["c.rs"])] ∧
    List.Chain' (fun a b => a.1 + 10 ≤ b.1)
      (start_watching_triggers (fun _ => false) (fun _ => true) 0
        [(0, ["a.rs"]), (2, ["b.rs"]), (11, ["c.rs"])]) :=
  ⟨by decide,
   C8_debounce_invariant.1 (fun _ => false) (fun _ => true) 0
     [(0, ["a.rs"]), (2, ["b.rs"]), (11, ["c.rs"])] (by decide) (by decide)⟩

/-! ## Buffered log sink (`logger/buffer.rs::buffer_worker`)

The worker loop is embedded over the sequence of `select!` outcomes it
observes: each iteration either receives an entry or times out after one
second, and carries the boolean `last_flush.elapsed() >= 5s` evaluated at
the flush check of that iteration.  The trace ends when every sender is
dropped: the `Err(_) => break` arm exits the loop at that point. -/

/-- `logger/model.rs::LogLevel`. -/
inductive LogLevel where
  | Info
  | Warn
  | Error
  | Debug
deriving DecidableEq, Repr

/-- `logger/model.rs::LogEntry`. -/
structure LogEntry where
  level : LogLevel
  message : String
  timestamp : String
deriving DecidableEq, Repr

/-- The worker's state: the in-memory buffer and the entries already
written to the destination file, in write order. -/
structure WorkerState where
  buffer : List LogEntry
  written : List LogEntry
deriving DecidableEq, Repr

/-- One `select!` outcome: a received entry or the one-second timeout. -/
inductive SelectOutcome where
  | recv (e : LogEntry)
  | timeout
deriving DecidableEq, Repr

/-- One loop iteration of `buffer_worker`: push a received entry, then
flush (drain the whole buffer to the destination, in order) when the
flush interval has elapsed and the buffer is non-empty. -/
def worker_iter (s : WorkerState) (outcome : SelectOutcome) (flush_due : Bool) :
    WorkerState :=
  let s1 :=
    match outcome with
    | .recv e => { s with buffer := s.buffer ++ [e] }
    | .timeout => s
  if flush_due && !s1.buffer.isEmpty then
    { buffer := [], written := s1.written ++ s1.buffer }
  else s1

/-- Run the worker over a finite trace; at the end of the trace the
channel reports closure (`Err`) and the loop `break`s — without flushing
what is still buffered. -/
def worker_run (s : WorkerState) : List (SelectOutcome × Bool) → WorkerState
  | [] => s
  | (outcome, flush_due) :: rest => worker_run (worker_iter s outcome flush_due) rest

/-- The whole worker life: start with empty buffer and destination. -/
def buffer_worker (trace : List (SelectOutcome × Bool)) : WorkerState :=
  worker_run ⟨[], []⟩ trace

/-- The entries received over a trace, in arrival order. -/
def sent_entries (trace : List (SelectOutcome × Bool)) : List LogEntry :=
  trace.filterMap fun x =>
    match x.1 with
    | .recv e => some e
    | .timeout => none

/-- Accounting invariant: written entries followed by the still-buffered
ones are exactly the received entries, in order. -/
theorem worker_run_account (trace : List (SelectOutcome × Bool)) :
    ∀ s : WorkerState,
      (worker_run s trace).written ++ (worker_run s trace).buffer =
        s.written ++ s.buffer ++ sent_entries trace := by
  induction trace with
  | nil => intro s; simp [worker_run, sent_entries]
  | cons step rest ih =>
    intro s
    obtain ⟨outcome, flush_due⟩ := step
    rw [worker_run]
    rw [ih (worker_iter s outcome flush_due)]
    cases outcome with
    | recv e =>
      simp only [worker_iter, sent_entries, List.filterMap_cons]
      split_ifs <;> simp [sent_entries]
    | timeout =>
      simp only [worker_iter, sent_entries, List.filterMap_cons]
      split_ifs <;> simp [sent_entries]

/-- C2 counterexample: one entry is sent, the flush window is not yet due,
and then the producer side closes.  The worker exits with the destination
still empty, so an entry sent before closure is never written — the
worker does not drain its buffer on channel closure. -/
theorem C2_close_drops_buffered_counterexample :
    sent_entries [(.recv ⟨.Info, "payload", "2024-01-01T00:00:00Z"⟩, false)] =
      [⟨.Info, "payload", "2024-01-01T00:00:00Z"⟩] ∧
    (buffer_worker [(.recv ⟨.Info, "payload", "2024-01-01T00:00:00Z"⟩, false)]).written =
      [] := by
  decide

/-- C2 (amended): over every trace, what has been written followed by
what is still buffered is exactly the sequence of received entries — so
writes happen in arrival order and no entry is written twice (the output
is always a prefix of the arrival sequence) — but on channel closure the
worker exits immediately, losing exactly the still-buffered suffix. -/
theorem C2_flush_order_prefix (trace : List (SelectOutcome × Bool)) :
    (buffer_worker trace).written ++ (buffer_worker trace).buffer =
      sent_entries trace ∧
    (buffer_worker trace).written <+: sent_entries trace :=
  ⟨worker_run_account trace ⟨[], []⟩,
   ⟨(buffer_worker trace).buffer, worker_run_account trace ⟨[], []⟩⟩⟩

/-! ## Claim C9: grumpiness noninterference -/

/-- A threshold violation found by the complexity step: which function,
which metric, which bound. -/
inductive MetricViolation where
  | overComplexity (name : String) (value maxAllowed : Nat)
  | overSize (name : String) (value maxAllowed : Nat)
deriving DecidableEq, Repr

/-- The violations the complexity loop flags, in emission order;
tone-independent. -/
def metricViolations (max_function_size max_cyclomatic_complexity : Nat) :
    List FunctionComplexity → List MetricViolation
  | [] => []
  | m :: rest =>
    (if m.cyclomatic_complexity % 256 > max_cyclomatic_complexity then
      [.overComplexity m.name m.cyclomatic_complexity max_cyclomatic_complexity]
    else []) ++
    (if m.lines_of_code % 256 > max_function_size then
      [.overSize m.name m.lines_of_code max_function_size]
    else []) ++
    metricViolations max_function_size max_cyclomatic_complexity rest

/-- The one warning line a violation contributes, in the given tone. -/
def renderViolation (grumpiness_level : GrumpinessLevel) : MetricViolation → String
  | .overComplexity n v mx => complexity.warning grumpiness_level n v mx ++ "\n"
  | .overSize n v mx => function_size.warning grumpiness_level n v mx ++ "\n"

/-- A string is empty exactly when its character list is. -/
theorem str_eq_empty_iff (s : String) : s = "" ↔ s.data = [] := by
  rw [String.ext_iff]

/-- Concatenation is empty exactly when both halves are. -/
theorem str_append_eq_empty (s t : String) : s ++ t = "" ↔ s = "" ∧ t = "" := by
  simp [str_eq_empty_iff, String.data_append]

/-- A concatenation with a non-empty left half is non-empty. -/
theorem str_append_ne_empty_left (s t : String) (h : s ≠ "") : s ++ t ≠ "" :=
  fun hh => h ((str_append_eq_empty s t).mp hh).1

/-- `String.join` distributes over `::` as concatenation. -/
theorem string_join_cons (a : String) (l : List String) :
    String.join (a :: l) = a ++ String.join l := by
  rw [String.ext_iff]
  simp [String.data_join, String.data_append]

/-- The complexity loop equals: the flag records whether any violation
fired, and the buffer collects one rendered line per violation — the
violation list does not depend on the tone, only the rendering does. -/
theorem check_metrics_eq (g : GrumpinessLevel) (mfs mcc : Nat) :
    ∀ (ms : List FunctionComplexity) (s : Bool) (acc : String),
      check_metrics g mfs mcc ms s acc =
        (s && (metricViolations mfs mcc ms).isEmpty,
         acc ++ String.join ((metricViolations mfs mcc ms).map (renderViolation g))) := by
  intro ms
  induction ms with
  | nil => intro s acc; simp [check_metrics, metricViolations, String.join]
  | cons m rest ih =>
    intro s acc
    by_cases h1 : m.cyclomatic_complexity % 256 > mcc <;>
      by_cases h2 : m.lines_of_code % 256 > mfs <;>
        simp only [check_metrics, metricViolations, h1, h2, if_true, if_false, ih,
          List.singleton_append, List.nil_append, List.cons_append, List.map_cons,
          string_join_cons, renderViolation, List.isEmpty_cons, Bool.and_false,
          Bool.false_and, String.append_assoc, Prod.mk.injEq, List.map_nil]

/-- No tone renders the clippy failure line as an empty string. -/
theorem clippy_failure_ne_empty (g : GrumpinessLevel) : clippy.failure g ≠ "" := by
  cases g <;> decide

/-- No violation renders as an empty line, in any tone. -/
theorem renderViolation_ne_empty (g : GrumpinessLevel) (v : MetricViolation) :
    renderViolation g v ≠ "" := by
  cases v <;>
    (intro h; rw [renderViolation, str_append_eq_empty] at h; exact absurd h.2 (by decide))

/-- Rendering a non-empty violation list never yields the empty string. -/
theorem join_render_ne_empty (g : GrumpinessLevel) (l : List MetricViolation)
    (h : l.isEmpty = false) :
    String.join (l.map (renderViolation g)) ≠ "" := by
  cases l with
  | nil => simp at h
  | cons v vs =>
    rw [List.map_cons, string_join_cons]
    exact str_append_ne_empty_left _ _ (renderViolation_ne_empty g v)

/-- The error text the clippy step pushes does not depend on the tone. -/
theorem clippy_step_err_eq (g1 g2 : GrumpinessLevel) (path : String)
    (c : Except String (Bool × String)) :
    (clippy_step g1 path c).2.2 = (clippy_step g2 path c).2.2 := by
  cases c with
  | error e => rfl
  | ok sc =>
    cases hb : sc.1 <;> simp only [clippy_step, hb, if_true, Bool.false_eq_true, if_false] <;>
      split_ifs <;> rfl

/-- Whether the clippy step pushes a warning line does not depend on the
tone. -/
theorem clippy_step_warn_empty_iff (g1 g2 : GrumpinessLevel) (path : String)
    (c : Except String (Bool × String)) :
    ((clippy_step g1 path c).2.1 = "" ↔ (clippy_step g2 path c).2.1 = "") := by
  cases c with
  | error e => exact Iff.rfl
  | ok sc =>
    cases hb : sc.1 <;>
      simp only [clippy_step, hb, if_true, Bool.false_eq_true, if_false] <;>
      (try split_ifs) <;>
      simp [clippy_failure_ne_empty]

/-- The error text the git step pushes does not depend on the tone. -/
theorem git_step_err_eq (g1 g2 : GrumpinessLevel)
    (git : Except String GitInspectorResults) :
    (git_step g1 git).2 = (git_step g2 git).2 := by
  cases git with
  | error e => rfl
  | ok inspector =>
    obtain ⟨stale, author⟩ := inspector
    cases stale with
    | error e1 => cases author <;> rfl
    | ok b => cases b <;> cases author <;> rfl

/-- The initial "Detected changes" line is never empty. -/
theorem info0_ne_empty (path : String) :
    ("Detected changes in '" ++ debugString ((extract_path_from_src path).getD "") ++
      "'\n") ≠ "" := by
  intro h
  rw [str_append_eq_empty] at h
  exact absurd h.2 (by decide)

/-- C9: for every pipeline input and every pair of grumpiness levels the
two runs panic identically; when they complete, the error buffers are
character-for-character equal, and the warning and info buffers are empty
for one level exactly when they are empty for the other; moreover the
complexity step flags the same violation list under every level, the tone
entering only through the rendering of each line. -/
theorem C9_grumpiness_noninterference (path : String) (mfs mcc : Nat)
    (ext : Externals) (g1 g2 : GrumpinessLevel) :
    (∀ m : String,
      handle_file_changes path g1 mfs mcc ext = .panicked m ↔
        handle_file_changes path g2 mfs mcc ext = .panicked m) ∧
    (∀ r1 r2 : Report,
      handle_file_changes path g1 mfs mcc ext = .value r1 →
      handle_file_changes path g2 mfs mcc ext = .value r2 →
      r1.error_messages = r2.error_messages ∧
      (r1.warning_messages = "" ↔ r2.warning_messages = "") ∧
      (r1.info_messages = "" ↔ r2.info_messages = "")) ∧
    (∀ (g : GrumpinessLevel) (ms : List FunctionComplexity) (s : Bool) (acc : String),
      check_metrics g mfs mcc ms s acc =
        (s && (metricViolations mfs mcc ms).isEmpty,
         acc ++ String.join ((metricViolations mfs mcc ms).map (renderViolation g)))) := by
  have main :
      (∃ m0 : String, ∀ g : GrumpinessLevel,
        handle_file_changes path g mfs mcc ext = .panicked m0) ∨
      (∃ F : GrumpinessLevel → Report,
        (∀ g : GrumpinessLevel,
          handle_file_changes path g mfs mcc ext = .value (F g)) ∧
        (F g1).error_messages = (F g2).error_messages ∧
        ((F g1).warning_messages = "" ↔ (F g2).warning_messages = "") ∧
        ((F g1).info_messages = "" ↔ (F g2).info_messages = "")) := by
    cases hsrc : ext.source_read with
    | none =>
      exact Or.inl ⟨"Failed to read file", fun g => by
        simp [handle_file_changes, analyze_file_complexity, hsrc]⟩
    | some code =>
      cases hp : ext.syn_parse code with
      | none =>
        exact Or.inl ⟨"Syntax error", fun g => by
          simp [handle_file_changes, analyze_file_complexity, hsrc, hp]⟩
      | some tree =>
        cases hrl : ext.rules_load with
        | panicked m0 =>
          exact Or.inl ⟨m0, fun g => by
            simp [handle_file_changes, analyze_file_complexity,
              analyze_file_with_custom_rules, hsrc, hp, hrl]⟩
        | value v =>
          have value_case : ∀ rres : Except String (Bool × List String),
              analyze_file_with_custom_rules (some code) ext.rules_load =
                .value rres →
              (∃ F : GrumpinessLevel → Report,
                (∀ g : GrumpinessLevel,
                  handle_file_changes path g mfs mcc ext = .value (F g)) ∧
                (F g1).error_messages = (F g2).error_messages ∧
                ((F g1).warning_messages = "" ↔ (F g2).warning_messages = "") ∧
                ((F g1).info_messages = "" ↔ (F g2).info_messages = "")) := by
            intro rres hres
            refine
              ⟨fun g =>
                ⟨"Detected changes in '" ++
                    debugString ((extract_path_from_src path).getD "") ++ "'\n" ++
                    (fmt_step ext.fmt_result).1 ++
                    (clippy_step g path ext.clippy_result).1 ++
                    (git_step g ext.git_new).1,
                  (clippy_step g path ext.clippy_result).2.1 ++
                    (complexity_result_step
                      (.ok (check_metrics g mfs mcc (analyze_file tree) true ""))).1 ++
                    (rules_result_step rres).1,
                  (fmt_step ext.fmt_result).2 ++
                    (clippy_step g path ext.clippy_result).2.2 ++
                    (complexity_result_step
                      (.ok (check_metrics g mfs mcc (analyze_file tree) true ""))).2 ++
                    (rules_result_step rres).2 ++
                    (git_step g ext.git_new).2⟩,
                fun g => ?_, ?_, ?_, ?_⟩
            · simp [handle_file_changes, analyze_file_complexity, hsrc, hp, hres]
            · simp only [complexity_result_step]
              rw [clippy_step_err_eq g1 g2 path ext.clippy_result,
                git_step_err_eq g1 g2 ext.git_new]
            · simp only [complexity_result_step, check_metrics_eq, Bool.true_and,
                String.empty_append]
              rw [str_append_eq_empty, str_append_eq_empty,
                str_append_eq_empty, str_append_eq_empty]
              refine and_congr (and_congr
                (clippy_step_warn_empty_iff g1 g2 path ext.clippy_result) ?_) Iff.rfl
              cases hV : (metricViolations mfs mcc (analyze_file tree)).isEmpty with
              | true => simp [hV]
              | false =>
                simp only [hV, Bool.false_eq_true, if_false]
                exact iff_of_false (join_render_ne_empty g1 _ hV)
                  (join_render_ne_empty g2 _ hV)
            · exact iff_of_false
                (str_append_ne_empty_left _ _ (str_append_ne_empty_left _ _
                  (str_append_ne_empty_left _ _ (info0_ne_empty path))))
                (str_append_ne_empty_left _ _ (str_append_ne_empty_left _ _
                  (str_append_ne_empty_left _ _ (info0_ne_empty path))))
          cases v with
          | error e =>
            exact Or.inr (value_case (.error ("Failed to load custom rules: " ++ e))
              (by simp [analyze_file_with_custom_rules, hrl]))
          | ok o =>
            cases o with
            | none =>
              exact Or.inr (value_case (.ok (true, []))
                (by simp [analyze_file_with_custom_rules, hrl]))
            | some rules =>
              exact Or.inr (value_case (apply_rules rules code)
                (by simp [analyze_file_with_custom_rules, hrl]))
  rcases main with ⟨m0, hk⟩ | ⟨F, hk, he, hw, hi⟩
  · refine ⟨fun m => by rw [hk g1, hk g2], fun r1 r2 h1 h2 => ?_,
      fun g ms s acc => check_metrics_eq g mfs mcc ms s acc⟩
    rw [hk g1] at h1
    exact absurd h1 (by simp)
  · refine ⟨fun m => by rw [hk g1, hk g2]; simp, fun r1 r2 h1 h2 => ?_,
      fun g ms s acc => check_metrics_eq g mfs mcc ms s acc⟩
    rw [hk g1] at h1
    rw [hk g2] at h2
    injection h1 with h1'
    injection h2 with h2'
    subst h1'
    subst h2'
    exact ⟨he, hw, hi⟩

/-- Extract the report of a completed run (dummy report on a panic). -/
def reportOf : PanicOr Report → Report
  | .value r => r
  | .panicked _ => ⟨"", "", ""⟩

/-- Externals for the C9 witness: failing formatter, clippy failure
naming the file, a TODO in the source, one enabled `no_todo_comments`
rule, stale file with a known author. -/
def c9_ext : Externals :=
  { fmt_result := .error "spawn failed"
    clippy_result := .ok (false, "--> src/wit.rs:3:5")
    source_read := some "// TODO later"
    syn_parse := fun _ => some []
    rules_load := .value (.ok (some [⟨"no_todo_comments", true, none, none⟩]))
    git_new := .ok ⟨.ok true, .ok (some "alice")⟩ }

/-- Witness for `C9_grumpiness_noninterference`: a concrete run completes
under both the mild and the rude tone, and the theorem's consequences
hold for the two concrete reports. -/
theorem C9_grumpiness_noninterference_witness :
    handle_file_changes "src/wit.rs" .Mild 50 10 c9_ext =
      .value (reportOf (handle_file_changes "src/wit.rs" .Mild 50 10 c9_ext)) ∧
    handle_file_changes "src/wit.rs" .Rude 50 10 c9_ext =
      .value (reportOf (handle_file_changes "src/wit.rs" .Rude 50 10 c9_ext)) ∧
    ((reportOf (handle_file_changes "src/wit.rs" .Mild 50 10 c9_ext)).error_messages =
      (reportOf (handle_file_changes "src/wit.rs" .Rude 50 10 c9_ext)).error_messages ∧
     ((reportOf (handle_file_changes "src/wit.rs" .Mild 50 10 c9_ext)).warning_messages =
        "" ↔
      (reportOf (handle_file_changes "src/wit.rs" .Rude 50 10 c9_ext)).warning_messages =
        "") ∧
     ((reportOf (handle_file_changes "src/wit.rs" .Mild 50 10 c9_ext)).info_messages =
        "" ↔
      (reportOf (handle_file_changes "src/wit.rs" .Rude 50 10 c9_ext)).info_messages =
        "")) :=
  ⟨rfl, rfl,
   (C9_grumpiness_noninterference "src/wit.rs" 50 10 c9_ext .Mild .Rude).2.1
     (reportOf (handle_file_changes "src/wit.rs" .Mild 50 10 c9_ext))
     (reportOf (handle_file_changes "src/wit.rs" .Rude 50 10 c9_ext)) rfl rfl⟩

end GrumpyClippy
